import Mathlib

/-!
Verification development for the registration / seat-allocation and
promo-pricing flow of the AIforimpact site (module `registration.py`,
with the course configuration of `course_settings.py` and the static
price-page data of `price.py`).

The Python module is shallowly embedded: form values arrive as
`Option String` (a missing form key is `none`), the database table of
registrations is a `List Row`, money amounts are `Int` (the module works
with Python `int` euros throughout), and wall-clock instants are an
abstract `Nat` tick used only to fill the `created_at`/`updated_at`
columns.  Failure of the external world (the seat-count query raising,
the INSERT raising, the SMTP transport raising) is passed in explicitly
as booleans / an `Except` value, mirroring the `try/except` blocks of
the source.
-/

/-! ## Python primitive helpers -/

/-- The whitespace characters Python's `str.strip()` removes (ASCII part). -/
def pyIsSpace (c : Char) : Bool :=
  c == ' ' || c == '\t' || c == '\n' || c == '\x0d' || c == '\x0b' || c == '\x0c'

/-- Re-attach `c` in front of an already right-trimmed tail: if the tail
trimmed to nothing, `c` survives only when it is not whitespace. -/
def trimTrailAux (c : Char) : List Char → List Char
  | [] => if pyIsSpace c then [] else [c]
  | d :: ds => c :: d :: ds

/-- Drop trailing characters satisfying `pyIsSpace` (structural recursion). -/
def trimTrail : List Char → List Char
  | [] => []
  | c :: t => trimTrailAux c (trimTrail t)

/-- Python `str.strip()`: remove leading and trailing whitespace. -/
def pyStrip (s : String) : String :=
  String.mk (trimTrail (s.toList.dropWhile pyIsSpace))

/-- ASCII lower-casing of one character, as Python `str.lower()` does on ASCII. -/
def lowerChar (c : Char) : Char :=
  if 'A' ≤ c ∧ c ≤ 'Z' then Char.ofNat (c.toNat + 32) else c

/-- Python `str.lower()` (ASCII fragment; the promo codes are ASCII). -/
def pyLower (s : String) : String :=
  String.mk (s.toList.map lowerChar)

/-- `_s(x)` from `registration.py`: `None` stays `None`, otherwise strip and
turn the empty string into `None`. -/
def _s (x : Option String) : Option String :=
  match x with
  | none => none
  | some v =>
    let v := pyStrip v
    if v = "" then none else some v

/-- `_bool(v, default)` from `registration.py`: `None` gives the default,
otherwise the stripped lower-cased string must be one of the truthy tokens. -/
def pyBool (v : Option String) (dflt : Bool) : Bool :=
  match v with
  | none => dflt
  | some s => ["1", "true", "yes", "y", "on"].contains (pyLower (pyStrip s))

/-- `_clip(x, n)` from `registration.py`: `_s` then truncate to `n` characters. -/
def clipAt (x : Option String) (n : Nat) : Option String :=
  match _s x with
  | none => none
  | some s => if s.toList.length > n then some (String.mk (s.toList.take n)) else some s

/-- `_clip` with its default length 500. -/
def clip (x : Option String) : Option String := clipAt x 500

/-- Value of a string of decimal digits; `none` if empty or a non-digit occurs. -/
def digitsVal : List Char → Option Nat
  | [] => none
  | [c] => if '0' ≤ c ∧ c ≤ '9' then some (c.toNat - 48) else none
  | c :: t =>
    match digitsVal t, (if '0' ≤ c ∧ c ≤ '9' then some (c.toNat - 48) else none) with
    | some vt, some vc => some (vc * 10 ^ t.length + vt)
    | _, _ => none

/-- Python `int(s)` on an already-stripped string: optional sign then digits,
`None` modelling the `ValueError`. -/
def pyInt (s : String) : Option Int :=
  match s.toList with
  | '-' :: rest => (digitsVal rest).map (fun n => -(n : Int))
  | '+' :: rest => (digitsVal rest).map (fun n => (n : Int))
  | cs => (digitsVal cs).map (fun n => (n : Int))

/-- Decimal digits of `n`, most significant first (`fuel` bounds the recursion). -/
def natDigits : Nat → Nat → List Char
  | 0, _ => []
  | f + 1, n =>
    if n < 10 then [Char.ofNat (48 + n)]
    else natDigits f (n / 10) ++ [Char.ofNat (48 + n % 10)]

/-- Render a natural number in decimal (as Python `str` does). -/
def natToStr (n : Nat) : String := String.mk (natDigits (n + 1) n)

/-- Render an integer in decimal (as the f-strings of `registration.py` do). -/
def intToStr (i : Int) : String :=
  if i < 0 then "-" ++ natToStr i.natAbs else natToStr i.natAbs

/-- Python `" ".join` restricted to the way the source uses it. -/
def joinWith (sep : String) : List String → String
  | [] => ""
  | [x] => x
  | x :: xs => x ++ sep ++ joinWith sep xs

/-- Strict lexicographic order on character lists (comparison by code point). -/
def lexLt : List Char → List Char → Bool
  | [], [] => false
  | [], _ :: _ => true
  | _ :: _, [] => false
  | a :: as, b :: bs => if a = b then lexLt as bs else decide (a < b)

/-- Lexicographic string comparison; on equal-format ISO-8601 UTC timestamps
(`YYYY-MM-DDTHH:MM:SSZ`) this coincides with chronological order. -/
def isoLt (a b : String) : Bool := lexLt a.toList b.toList

/-! ## `_slug` and the enum normalizers -/

/-- `_slug` body on the character list: each whitespace/slash becomes `_`,
characters outside `[a-z0-9_]` are dropped, runs of `_` collapse, and outer
`_` are stripped.  (Mapping every whitespace/slash character to `_` before
collapsing is equivalent to the source's replacement of whole runs.) -/
def slugKeep (c : Char) : Bool :=
  ('a' ≤ c && c ≤ 'z') || ('0' ≤ c && c ≤ '9') || c == '_'

/-- Collapse runs of consecutive underscores to a single underscore. -/
def collapseU : List Char → List Char
  | [] => []
  | c :: t =>
    match collapseU t with
    | [] => [c]
    | d :: ds => if c = '_' ∧ d = '_' then d :: ds else c :: d :: ds

/-- `_slug(s)` from `registration.py`. -/
def slug (s : Option String) : Option String :=
  match s with
  | none => none
  | some v =>
    if v = "" then none
    else
      let cs := (pyLower (pyStrip v)).toList
      let cs := cs.map (fun c => if pyIsSpace c || c == '/' then '_' else c)
      let cs := collapseU (cs.filter slugKeep)
      let cs := ((cs.dropWhile (fun c => c == '_')).reverse.dropWhile (fun c => c == '_')).reverse
      match cs with
      | [] => none
      | r => some (String.mk r)

/-- The referral choices offered by the form (`REFERRAL_CHOICES`). -/
def REFERRAL_CHOICES : List String :=
  ["Search", "YouTube", "TikTok/Instagram", "X/Twitter", "LinkedIn",
   "Friend/Colleague", "Event/Conference", "Partner", "Newsletter", "Other"]

/-- Fallback gender enum labels (the DB enum probe of `_load_enum_labels`
fails closed to this list). -/
def GENDER_ENUM_LABELS : List String :=
  ["female", "male", "other", "prefer_not_to_say"]

/-- Fallback referral enum labels: the slugs of `REFERRAL_CHOICES`. -/
def REFERRAL_ENUM_LABELS : List String :=
  REFERRAL_CHOICES.filterMap (fun x => slug (some x))

/-- `_normalizer(allowed)`: look the slug of the raw value up in the map
`{slug(lbl): lbl}` (with Python dict semantics a later duplicate slug wins,
hence `getLast?`). -/
def normLookup (allowed : List String) (raw : Option String) : Option String :=
  match slug raw with
  | none => none
  | some s => (allowed.filter (fun lbl => slug (some lbl) == some s)).getLast?

/-- `normalize_gender`. -/
def normalize_gender (raw : Option String) : Option String :=
  normLookup GENDER_ENUM_LABELS raw

/-- `normalize_referral`. -/
def normalize_referral (raw : Option String) : Option String :=
  normLookup REFERRAL_ENUM_LABELS raw

/-! ## Course configuration and the Pricing Resolver -/

/-- One entry of the `COURSES` list of `registration.py`.  `seat_cap` is
`Option Int` because the source keeps either `None` or a Python `int`,
and the capacity guard `if seat_cap:` tests Python truthiness (so `none`
and `some 0` are both falsy there). -/
structure Course where
  code : String
  title : String
  price_eur : Int
  currency : String
  seat_cap : Option Int
  requires_access_code : Bool
deriving Repr, DecidableEq

/-- The module-level configuration constants of `registration.py` that the
registration flow reads (each is an environment variable with the default
recorded in `defaultConfig` below). -/
structure Config where
  BASE_PRICE_EUR : Int
  PROMO_CODE : String
  PROMO_PRICE_EUR : Int
  PROMO_CODE_FREE : String
  PROMO_PRICE_FREE_EUR : Int
  DEFAULT_ENROLLMENT_STATUS : String
  COURSE_ACCESS_CODE : String
  courses : List Course
deriving Repr, DecidableEq

/-- The configuration obtained from the source defaults: `BASE_PRICE_EUR=900`,
`PROMO_CODE="IMPACT-439"` at 439, `PROMO_CODE_FREE="IMPACT-100"` at 0, and
the two `COURSES` entries (with `course_settings.py` defaults
`BOOTCAMP_CODE="BOOT-AI-2024"`, seat cap 20, public registration true, and
the bootcamp price falling back to `BOOTCAMP_PRICE_EUR=350` when the seat
price table is unavailable). -/
def defaultConfig : Config :=
  { BASE_PRICE_EUR := 900
    PROMO_CODE := "IMPACT-439"
    PROMO_PRICE_EUR := 439
    PROMO_CODE_FREE := "IMPACT-100"
    PROMO_PRICE_FREE_EUR := 0
    DEFAULT_ENROLLMENT_STATUS := "pending"
    COURSE_ACCESS_CODE := "letmein"
    courses :=
      [{ code := "AAI-RTD"
         title := "One on one Tailored Training Session"
         price_eur := 900
         currency := "EUR"
         seat_cap := none
         requires_access_code := true },
       { code := "BOOT-AI-2024"
         title := "AI Implementation Bootcamp (20 seats)"
         price_eur := 350
         currency := "USD"
         seat_cap := some 20
         requires_access_code := false }] }

/-- The static `COURSE_INFO` record of `price.py` — the only place in the
repository where an early-bird price and an early-bird deadline exist; both
are used purely for display on the price page. -/
structure PriceCourseInfo where
  slug : String
  title : String
  price_eur : Int
  currency : String
  early_bird_price : Option Int
  early_bird_deadline : Option String
deriving Repr, DecidableEq

/-- `COURSE_INFO` from `price.py`. -/
def COURSE_INFO : PriceCourseInfo :=
  { slug := "advanced-ai-utilization"
    title := "Advanced AI Utilization and Real-Time Deployment"
    price_eur := 900
    currency := "EUR"
    early_bird_price := some 750
    early_bird_deadline := some "2025-12-20T00:00:00Z" }

/-- Python truthiness of the optional promo string (`if promo_input:`). -/
def promoTruthy : Option String → Bool
  | none => false
  | some s => s ≠ ""

/-- `_compute_price(promo_input, base_price)` from `registration.py`.
`promo_input` is the raw optional string (the function itself tests Python
truthiness and strips/lower-cases); `base_price = none` selects
`BASE_PRICE_EUR`.  Returns `(price, applied_code, is_free)`. -/
def compute_price (cfg : Config) (promo_input : Option String)
    (base_price : Option Int) : Int × Option String × Bool :=
  let base := match base_price with | some b => b | none => cfg.BASE_PRICE_EUR
  if promoTruthy promo_input then
    let code := pyLower (pyStrip (promo_input.getD ""))
    if cfg.PROMO_CODE ≠ "" ∧ code = pyLower cfg.PROMO_CODE ∧ cfg.PROMO_PRICE_EUR < base then
      (cfg.PROMO_PRICE_EUR, some cfg.PROMO_CODE, cfg.PROMO_PRICE_EUR = 0)
    else if cfg.PROMO_CODE_FREE ≠ "" ∧ code = pyLower cfg.PROMO_CODE_FREE ∧ cfg.PROMO_PRICE_FREE_EUR ≤ base then
      (cfg.PROMO_PRICE_FREE_EUR, some cfg.PROMO_CODE_FREE, true)
    else
      (base, none, false)
  else
    (base, none, false)

/-- `_course_by_code(code)`. -/
def course_by_code (cfg : Config) (code : Option String) : Option Course :=
  match code with
  | none => none
  | some c => if c = "" then none else cfg.courses.find? (fun k => k.code == c)

/-- `_course_allows_open_registration(code)`. -/
def course_allows_open_registration (cfg : Config) (code : Option String) : Bool :=
  match course_by_code cfg code with
  | none => false
  | some course => !course.requires_access_code

/-- The Flask session state the registration flow reads. -/
structure Session where
  signed_in : Bool
  user_email : Option String
deriving Repr, DecidableEq

/-- `_require_signed_in(course_code)` (the flash message is elided). -/
def require_signed_in (cfg : Config) (sess : Session) (course_code : Option String) : Bool :=
  course_allows_open_registration cfg course_code || sess.signed_in

/-- The JSON body returned by the `/price-preview` endpoint. -/
structure PreviewResp where
  price_eur : Int
  promo_applied : Bool
  is_free : Bool
  base_price_eur : Int
deriving Repr, DecidableEq

/-- `price_preview` from `registration.py`: `raw_code` is the raw `code`
request value (passed to `_compute_price` unstripped), `raw_course` the
raw `course` value (passed through `_s`). -/
def price_preview (cfg : Config) (raw_code : Option String)
    (raw_course : Option String) : PreviewResp :=
  let course := course_by_code cfg (_s raw_course)
  let base := match course with | some c => c.price_eur | none => cfg.BASE_PRICE_EUR
  let r := compute_price cfg raw_code (some base)
  { price_eur := r.1
    promo_applied := r.2.1.isSome
    is_free := r.2.2
    base_price_eur := base }

/-! ## The submitted form, the persisted row and the Registration Writer -/

/-- The raw `request.form` of a `/submit` POST: every field is the optional
raw string of the multipart form (a missing key reads as `none`). -/
structure Form where
  course_session_code : Option String
  user_email : Option String
  first_name : Option String
  middle_name : Option String
  last_name : Option String
  age : Option String
  gender : Option String
  gender_other_note : Option String
  phone : Option String
  address_line1 : Option String
  address_line2 : Option String
  city : Option String
  state : Option String
  postal_code : Option String
  country : Option String
  job_title : Option String
  company : Option String
  ai_current_involvement : Option String
  ai_goals_wish_to_achieve : Option String
  ai_datasets_available : Option String
  referral_source : Option String
  reason_choose_us : Option String
  enrollment_status : Option String
  promo_code : Option String
  data_processing_ok : Option String
  invoice_name : Option String
  invoice_company : Option String
  invoice_vat_id : Option String
  invoice_email : Option String
  invoice_phone : Option String
  invoice_addr_line1 : Option String
  invoice_addr_line2 : Option String
  invoice_city : Option String
  invoice_state : Option String
  invoice_postal_code : Option String
  invoice_country : Option String
  notes : Option String
  consent_contact_ok : Option String
  consent_marketing_ok : Option String
  billing_same_as_personal : Option String
deriving Repr, DecidableEq

/-- One row of the `registrations` table, i.e. the `data` dict that
`submit` inserts. -/
structure Row where
  user_email : Option String
  first_name : Option String
  middle_name : Option String
  last_name : Option String
  age : Option Int
  gender : Option String
  gender_other_note : Option String
  phone : Option String
  address_line1 : Option String
  address_line2 : Option String
  city : Option String
  state : Option String
  postal_code : Option String
  country : Option String
  job_title : String
  company : Option String
  ai_current_involvement : Option String
  ai_goals_wish_to_achieve : Option String
  ai_datasets_available : Option String
  referral_source : Option String
  referral_details : String
  reason_choose_us : Option String
  enrollment_status : String
  invoice_name : Option String
  invoice_company : Option String
  invoice_vat_id : Option String
  invoice_email : Option String
  invoice_phone : Option String
  invoice_addr_line1 : Option String
  invoice_addr_line2 : Option String
  invoice_city : Option String
  invoice_state : Option String
  invoice_postal_code : Option String
  invoice_country : Option String
  course_session_code : Option String
  notes : Option String
  consent_contact_ok : Bool
  consent_marketing_ok : Bool
  data_processing_ok : Bool
  created_at : Nat
  updated_at : Nat
deriving Repr, DecidableEq

/-- The e-mail `submit` works with: the form value through `_s`, with the
session e-mail as fallback (Python `or`). -/
def submitEmail (sess : Session) (form : Form) : Option String :=
  match _s form.user_email with
  | some e => some e
  | none => sess.user_email

/-- The pricing step of `submit`: base price of the selected course (module
base price when the course is unknown) fed to `_compute_price` with the
`_s`-cleaned promo code. -/
def submitPricing (cfg : Config) (form : Form) : Int × Option String × Bool :=
  let selected := course_by_code cfg (_s form.course_session_code)
  let base := match selected with | some c => c.price_eur | none => cfg.BASE_PRICE_EUR
  compute_price cfg (_s form.promo_code) (some base)

/-- The `referral_details` value `submit` stores: the promo/price audit
string built with f-strings in the source. -/
def referralDetails (applied : Option String) (is_free : Bool) (price : Int) : String :=
  if applied.isSome then
    "PROMO_APPLIED:1;FREE:" ++ (if is_free then "1" else "0") ++ ";PRICE_EUR:" ++ intToStr price
  else
    "PRICE_EUR:" ++ intToStr price

/-- The `data` dict exactly as `submit` builds it (before the billing
autofill block); `now` fills the two UTC timestamps. -/
def buildData (cfg : Config) (sess : Session) (form : Form) (now : Nat) : Row :=
  let gender := normalize_gender (_s form.gender)
  let pr := submitPricing cfg form
  { user_email := submitEmail sess form
    first_name := _s form.first_name
    middle_name := _s form.middle_name
    last_name := _s form.last_name
    age := match _s form.age with | none => none | some a => pyInt a
    gender := gender
    gender_other_note := if gender = some "other" then clip form.gender_other_note else none
    phone := _s form.phone
    address_line1 := _s form.address_line1
    address_line2 := _s form.address_line2
    city := _s form.city
    state := _s form.state
    postal_code := _s form.postal_code
    country := _s form.country
    job_title := match form.job_title with
      | some j => if j ≠ "" then j else "Other"
      | none => "Other"
    company := _s form.company
    ai_current_involvement := clip form.ai_current_involvement
    ai_goals_wish_to_achieve := clip form.ai_goals_wish_to_achieve
    ai_datasets_available := clip form.ai_datasets_available
    referral_source := normalize_referral (_s form.referral_source)
    referral_details := referralDetails pr.2.1 pr.2.2 pr.1
    reason_choose_us := clip form.reason_choose_us
    enrollment_status := match _s form.enrollment_status with
      | some e => e
      | none => cfg.DEFAULT_ENROLLMENT_STATUS
    invoice_name := _s form.invoice_name
    invoice_company := _s form.invoice_company
    invoice_vat_id := _s form.invoice_vat_id
    invoice_email := _s form.invoice_email
    invoice_phone := _s form.invoice_phone
    invoice_addr_line1 := _s form.invoice_addr_line1
    invoice_addr_line2 := _s form.invoice_addr_line2
    invoice_city := _s form.invoice_city
    invoice_state := _s form.invoice_state
    invoice_postal_code := _s form.invoice_postal_code
    invoice_country := _s form.invoice_country
    course_session_code := _s form.course_session_code
    notes := clip form.notes
    consent_contact_ok := pyBool form.consent_contact_ok true
    consent_marketing_ok := pyBool form.consent_marketing_ok false
    data_processing_ok := pyBool form.data_processing_ok false
    created_at := now
    updated_at := now }

/-- The "Billing same-as-personal autofill" block of `submit`: each falsy
invoice field is replaced by the corresponding personal field (`full_name`
is the space-join of the present name parts). -/
def applyBillingFallback (data : Row) : Row :=
  let full_name := joinWith " " ([data.first_name, data.last_name].filterMap id)
  { data with
    invoice_name := match data.invoice_name with
      | some v => some v
      | none => some full_name
    invoice_email := match data.invoice_email with
      | some v => some v
      | none => data.user_email
    invoice_phone := match data.invoice_phone with
      | some v => some v
      | none => data.phone
    invoice_addr_line1 := match data.invoice_addr_line1 with
      | some v => some v
      | none => data.address_line1
    invoice_addr_line2 := match data.invoice_addr_line2 with
      | some v => some v
      | none => data.address_line2
    invoice_city := match data.invoice_city with
      | some v => some v
      | none => data.city
    invoice_state := match data.invoice_state with
      | some v => some v
      | none => data.state
    invoice_postal_code := match data.invoice_postal_code with
      | some v => some v
      | none => data.postal_code
    invoice_country := match data.invoice_country with
      | some v => some v
      | none => data.country }

/-- The row `submit` actually inserts: `data` with the autofill applied when
`billing_same_as_personal` is truthy (note the source default is `True`
when the field is absent). -/
def submitData (cfg : Config) (sess : Session) (form : Form) (now : Nat) : Row :=
  let data := buildData cfg sess form now
  if pyBool form.billing_same_as_personal true then applyBillingFallback data else data

/-! ## Validation errors, the Seat Ledger, and the submit control flow -/

/-- The Seat Ledger count: rows whose `course_session_code` equals the code. -/
def countFor (rows : List Row) (code : Option String) : Nat :=
  (rows.filter (fun r => r.course_session_code == code)).length

def emailRequiredMsg : String := "Email is required."
def firstRequiredMsg : String := "First name is required."
def lastRequiredMsg : String := "Last name is required."
def ageRangeMsg : String := "Age must be between 10 and 120."
def ageWholeMsg : String := "Age must be a whole number."
def courseInvalidMsg : String := "Please select a valid course."
def availabilityMsg : String :=
  "We couldn’t verify availability for that course. Please try again or contact us."
def cohortFullMsg : String :=
  "This cohort is full. Please choose a different session or contact us."
def consentMsg : String := "You must consent to data processing to register."

/-- The e-mail presence check of `submit`. -/
def emailErrors (sess : Session) (form : Form) : List String :=
  match submitEmail sess form with
  | none => [emailRequiredMsg]
  | some _ => []

/-- The first/last-name checks of `submit`. -/
def nameErrors (form : Form) : List String :=
  (if (_s form.first_name).isNone then [firstRequiredMsg] else []) ++
  (if (_s form.last_name).isNone then [lastRequiredMsg] else [])

/-- The age check of `submit`: absent is fine, non-integer raises the
`ValueError` message, out of `[10, 120]` the range message. -/
def ageErrors (form : Form) : List String :=
  match _s form.age with
  | none => []
  | some a =>
    match pyInt a with
    | none => [ageWholeMsg]
    | some n => if 10 ≤ n ∧ n ≤ 120 then [] else [ageRangeMsg]

/-- The course-selection and seat pre-check of `submit`: unknown course is a
validation error; for a truthy seat cap the count query runs against the
pre-check connection — a raising query (`precheckDbFails`) yields the
availability message, a full cohort the cohort-full message. -/
def courseErrors (cfg : Config) (form : Form) (s1 : List Row)
    (precheckDbFails : Bool) : List String :=
  match course_by_code cfg (_s form.course_session_code) with
  | none => [courseInvalidMsg]
  | some course =>
    match course.seat_cap with
    | none => []
    | some cap =>
      if cap ≠ 0 then
        if precheckDbFails then [availabilityMsg]
        else if cap ≤ (countFor s1 (_s form.course_session_code) : Int) then [cohortFullMsg]
        else []
      else []

/-- The data-processing consent check of `submit`. -/
def consentErrors (form : Form) : List String :=
  if pyBool form.data_processing_ok false then [] else [consentMsg]

/-- All validation errors of `submit`, in the order the source appends them. -/
def collectErrors (cfg : Config) (sess : Session) (form : Form) (s1 : List Row)
    (precheckDbFails : Bool) : List String :=
  emailErrors sess form ++ nameErrors form ++ ageErrors form ++
    courseErrors cfg form s1 precheckDbFails ++ consentErrors form

/-- The in-transaction seat re-check of `submit` (`if selected_course and
selected_course.get("seat_cap"): ... if current >= cap: raise SeatCapReached`),
evaluated against the transaction snapshot `s2`. -/
def seatFullAtInsert (cfg : Config) (form : Form) (s2 : List Row) : Bool :=
  match course_by_code cfg (_s form.course_session_code) with
  | none => false
  | some course =>
    match course.seat_cap with
    | none => false
    | some cap => decide (cap ≠ 0 ∧ cap ≤ (countFor s2 (_s form.course_session_code) : Int))

/-- The observable outcome of a `/submit` request: the sign-in redirect, the
400 re-render carrying the validation error list, the success redirect, the
`SeatCapReached` flash redirect, or the generic persistence-failure flash
redirect. -/
inductive Outcome where
  | redirectSignIn : Outcome
  | validationErrors : List String → Outcome
  | success : Outcome
  | seatCapFull : Outcome
  | dbError : Outcome
deriving Repr, DecidableEq

/-- Outcome and resulting table contents of `submit`, excluding the
notification step.  `s1` is the snapshot the pre-check connection reads,
`s2` the snapshot of the insert transaction (sequential submission means
`s1 = s2`); `insertFails` models the INSERT raising (the transaction rolls
back, nothing is persisted). -/
def submitCore (cfg : Config) (sess : Session) (form : Form) (s1 : List Row)
    (precheckDbFails : Bool) (s2 : List Row) (insertFails : Bool) (now : Nat) :
    Outcome × List Row :=
  if require_signed_in cfg sess (_s form.course_session_code) = false then
    (.redirectSignIn, s2)
  else if collectErrors cfg sess form s1 precheckDbFails ≠ [] then
    (.validationErrors (collectErrors cfg sess form s1 precheckDbFails), s2)
  else if seatFullAtInsert cfg form s2 then
    (.seatCapFull, s2)
  else if insertFails then
    (.dbError, s2)
  else
    (.success, s2 ++ [submitData cfg sess form now])

/-- The e-mail environment `_send_registration_email` runs in:
`REG_NOTIFY_ENABLED`, whether `EMAIL_BACKEND == "smtp"`, whether both SMTP
credentials are set, and the SMTP transport itself — an `Except` value,
`Except.error` modelling the transport raising. -/
structure MailEnv where
  notify_enabled : Bool
  backend_smtp : Bool
  has_credentials : Bool
  transport : Except String Unit
deriving Repr

/-- `_send_email_smtp`: skips (returning `False`) on a non-SMTP backend or
missing credentials; a raising transport is caught and converted to
`False`; otherwise the message is sent and `True` returned.  The return
type `Bool` (not `Except`) reflects that no exception escapes. -/
def send_email_smtp (env : MailEnv) : Bool :=
  if ¬env.backend_smtp then false
  else if ¬env.has_credentials then false
  else
    match env.transport with
    | Except.ok _ => true
    | Except.error _ => false

/-- `_send_registration_email`: a no-op when notification is disabled;
otherwise composes the payload (pure string formatting, elided) and calls
`_send_email_smtp`, whose boolean result we surface as "delivered".  The
source wraps the whole body in `try/except`, so the function is total. -/
def send_registration_email (env : MailEnv) (reg : Row) : Bool :=
  if ¬env.notify_enabled then false
  else send_email_smtp env

/-- Full result of a `/submit` request. -/
structure SubmitResult where
  outcome : Outcome
  rows : List Row
  emailDelivered : Bool
deriving Repr, DecidableEq

/-- `submit` from `registration.py`: the core validation/seat-check/insert
flow, followed — only after a successful commit — by the best-effort
notification, whose result influences neither the outcome nor the rows. -/
def submit (cfg : Config) (sess : Session) (form : Form) (s1 : List Row)
    (precheckDbFails : Bool) (s2 : List Row) (insertFails : Bool)
    (mail : MailEnv) (now : Nat) : SubmitResult :=
  let core := submitCore cfg sess form s1 precheckDbFails s2 insertFails now
  { outcome := core.1
    rows := core.2
    emailDelivered :=
      if core.1 = Outcome.success then
        send_registration_email mail (submitData cfg sess form now)
      else false }

/-! ## Concrete sample inputs (used by the witnesses below) -/

/-- An all-`none` form, to be overridden field by field. -/
def emptyForm : Form :=
  { course_session_code := none, user_email := none, first_name := none
    middle_name := none, last_name := none, age := none, gender := none
    gender_other_note := none, phone := none, address_line1 := none
    address_line2 := none, city := none, state := none, postal_code := none
    country := none, job_title := none, company := none
    ai_current_involvement := none, ai_goals_wish_to_achieve := none
    ai_datasets_available := none, referral_source := none
    reason_choose_us := none, enrollment_status := none, promo_code := none
    data_processing_ok := none, invoice_name := none, invoice_company := none
    invoice_vat_id := none, invoice_email := none, invoice_phone := none
    invoice_addr_line1 := none, invoice_addr_line2 := none
    invoice_city := none, invoice_state := none, invoice_postal_code := none
    invoice_country := none, notes := none, consent_contact_ok := none
    consent_marketing_ok := none, billing_same_as_personal := none }

/-- A fully valid submission for the (open-registration) bootcamp course. -/
def sampleForm : Form :=
  { emptyForm with
    course_session_code := some "BOOT-AI-2024"
    user_email := some "jane@x.io"
    first_name := some "Jane"
    last_name := some "Doe"
    age := some "30"
    gender := some "female"
    phone := some "+31612345678"
    address_line1 := some "Main 1"
    city := some "Delft"
    postal_code := some "2611"
    country := some "NL"
    job_title := some "Student"
    referral_source := some "LinkedIn"
    data_processing_ok := some "on" }

/-- An anonymous (not signed-in, no stored e-mail) session. -/
def anonSession : Session := { signed_in := false, user_email := none }

/-- A healthy mail environment (SMTP backend, credentials, transport ok). -/
def mailOk : MailEnv :=
  { notify_enabled := true, backend_smtp := true, has_credentials := true
    transport := Except.ok () }

/-- A mail environment whose SMTP transport raises. -/
def mailRaises : MailEnv :=
  { notify_enabled := true, backend_smtp := true, has_credentials := true
    transport := Except.error "SMTPException" }

/-- The bootcamp course entry with a seat cap of 2 (matching the spec's
`seat_cap = 2` example scenario; the cap comes from `BOOTCAMP_SEAT_CAP`). -/
def bootCourseCap2 : Course :=
  { code := "BOOT-AI-2024", title := "AI Implementation Bootcamp (2 seats)"
    price_eur := 350, currency := "USD", seat_cap := some 2
    requires_access_code := false }

/-- Configuration whose bootcamp course has seat cap 2. -/
def cfgCap2 : Config := { defaultConfig with courses := [bootCourseCap2] }

/-- The bootcamp course entry with a configured seat cap of 0
(`BOOTCAMP_SEAT_CAP=0`). -/
def bootCourseCap0 : Course :=
  { bootCourseCap2 with
    title := "AI Implementation Bootcamp (0 seats)"
    seat_cap := some 0 }

/-- Configuration whose bootcamp course has seat cap 0. -/
def cfgCap0 : Config := { defaultConfig with courses := [bootCourseCap0] }

/-- A persisted registration row for the bootcamp session code. -/
def bootRow : Row := submitData defaultConfig anonSession sampleForm 0

/-- A table holding two bootcamp registrations. -/
def twoBootRows : List Row := [bootRow, bootRow]

/-- A table holding three bootcamp registrations. -/
def threeBootRows : List Row := [bootRow, bootRow, bootRow]

/-- `sampleForm` with a syntactically ill-formed e-mail (no `@`). -/
def formBadEmail : Form := { sampleForm with user_email := some "noatsign" }

/-- `sampleForm` with the e-mail field left blank. -/
def formNoEmail : Form := { sampleForm with user_email := none }

/-- `sampleForm` with explicit billing flag, one pre-filled invoice field and
the rest blank. -/
def formBilling : Form :=
  { sampleForm with
    billing_same_as_personal := some "on"
    invoice_name := some "ACME B.V."
    invoice_city := some "Rotterdam" }

/-- A session that stores an e-mail (as `/signin` leaves behind). -/
def sessWithEmail : Session := { signed_in := false, user_email := some "stored@x.io" }

/-! ## Helper lemmas -/

theorem toList_mk (l : List Char) : (String.mk l).toList = l := rfl

theorem dropWhile_length_le (p : Char → Bool) (l : List Char) :
    (l.dropWhile p).length ≤ l.length := by
  induction l with
  | nil => simp [List.dropWhile]
  | cons c t ih => by_cases hp : p c <;> simp [List.dropWhile, hp] <;> omega

theorem dropWhile_cons_head (p : Char → Bool) (c : Char) (t : List Char)
    (h : List.dropWhile p (c :: t) = c :: t) : p c = false := by
  by_cases hp : p c
  · simp only [List.dropWhile, hp] at h
    have h1 := dropWhile_length_le p t
    have h2 := congrArg List.length h
    simp at h2
    omega
  · simpa using hp

theorem dropWhile_idem (p : Char → Bool) (l : List Char) :
    List.dropWhile p (List.dropWhile p l) = List.dropWhile p l := by
  induction l with
  | nil => simp [List.dropWhile]
  | cons c t ih => by_cases hp : p c <;> simp [List.dropWhile, hp, ih]

theorem dropWhile_trimTrail (l : List Char) (h : List.dropWhile pyIsSpace l = l) :
    List.dropWhile pyIsSpace (trimTrail l) = trimTrail l := by
  cases l with
  | nil => simp [trimTrail]
  | cons c t =>
    have hc : pyIsSpace c = false := dropWhile_cons_head _ _ _ h
    have hrw : trimTrail (c :: t) = trimTrailAux c (trimTrail t) := rfl
    rw [hrw]
    cases htt : trimTrail t with
    | nil => simp [trimTrailAux, hc, List.dropWhile]
    | cons d ds => simp [trimTrailAux, hc, List.dropWhile]

theorem trimTrail_idem (l : List Char) : trimTrail (trimTrail l) = trimTrail l := by
  induction l with
  | nil => rfl
  | cons c t ih =>
    show trimTrail (trimTrailAux c (trimTrail t)) = trimTrailAux c (trimTrail t)
    cases htt : trimTrail t with
    | nil =>
      by_cases hp : pyIsSpace c <;> simp [trimTrail, trimTrailAux, hp]
    | cons d ds =>
      rw [htt] at ih
      show trimTrail (c :: d :: ds) = c :: d :: ds
      show trimTrailAux c (trimTrail (d :: ds)) = c :: d :: ds
      rw [ih]
      rfl

theorem pyStrip_idem (s : String) : pyStrip (pyStrip s) = pyStrip s := by
  unfold pyStrip
  rw [toList_mk, dropWhile_trimTrail _ (dropWhile_idem pyIsSpace s.toList),
    trimTrail_idem]

theorem pyLower_eq_empty {t : String} (h : pyLower t = "") : t = "" := by
  cases t with
  | mk d =>
    unfold pyLower at h
    rw [toList_mk] at h
    have hd : d.map lowerChar = [] := by
      have := congrArg String.toList h
      simpa using this
    have : d = [] := by simpa using hd
    simp [this]

theorem pyStrip_empty : pyStrip "" = "" := rfl

/-- `_compute_price` on a whitespace-only (or empty) promo string behaves as
with no promo at all: the stripped lower-cased code is `""`, which cannot
equal the lower-casing of a nonempty configured code. -/
theorem compute_price_blank (cfg : Config) (s : String) (b : Option Int)
    (h : pyStrip s = "") :
    compute_price cfg (some s) b = compute_price cfg none b := by
  by_cases hse : s = ""
  · subst hse; rfl
  · have hnone : compute_price cfg none b =
        ((match b with | some v => v | none => cfg.BASE_PRICE_EUR), none, false) := rfl
    rw [hnone]
    have ht : promoTruthy (some s) = true := by simp [promoTruthy, hse]
    simp only [compute_price, ht, eq_self_iff_true, if_true, Option.getD, h]
    split_ifs with h1 h2
    · exact absurd (pyLower_eq_empty h1.2.1.symm) h1.1
    · exact absurd (pyLower_eq_empty h2.2.1.symm) h2.1
    · rfl

/-- `_compute_price` gives the same result on the raw promo string and on its
`_s`-cleaned form: stripping is idempotent inside `_compute_price`, and a
whitespace-only promo cannot match a promo code. -/
theorem compute_price_strip (cfg : Config) (x : Option String) (b : Option Int) :
    compute_price cfg (_s x) b = compute_price cfg x b := by
  cases x with
  | none => rfl
  | some s =>
    by_cases h : pyStrip s = ""
    · have hs : _s (some s) = none := by simp [_s, h]
      rw [hs, compute_price_blank cfg s b h]
    · have hs : _s (some s) = some (pyStrip s) := by simp [_s, h]
      have hse : s ≠ "" := by
        intro he; exact h (by rw [he]; rfl)
      rw [hs]
      have ht1 : promoTruthy (some (pyStrip s)) = true := by simp [promoTruthy, h]
      have ht2 : promoTruthy (some s) = true := by simp [promoTruthy, hse]
      simp only [compute_price, ht1, ht2, eq_self_iff_true, if_true, Option.getD,
        pyStrip_idem]

theorem countFor_append (s : List Row) (r : Row) (k : Option String) :
    countFor (s ++ [r]) k =
      countFor s k + (if r.course_session_code == k then 1 else 0) := by
  cases hbk : (r.course_session_code == k) <;>
    simp [countFor, List.filter_append, List.filter, hbk]

theorem submitData_code (cfg : Config) (sess : Session) (form : Form) (now : Nat) :
    (submitData cfg sess form now).course_session_code = _s form.course_session_code := by
  unfold submitData
  split_ifs <;> simp [applyBillingFallback, buildData]

/-- If the in-transaction seat check does not fire for a course with a truthy
seat cap, the transaction snapshot is strictly below the cap. -/
theorem seatFull_false_lt (cfg : Config) (form : Form) (s2 : List Row)
    (course : Course) (cap : Int)
    (hcourse : course_by_code cfg (_s form.course_session_code) = some course)
    (hcap : course.seat_cap = some cap) (hpos : cap ≠ 0)
    (h : seatFullAtInsert cfg form s2 = false) :
    (countFor s2 (_s form.course_session_code) : Int) < cap := by
  unfold seatFullAtInsert at h
  rw [hcourse] at h
  simp [hcap, hpos] at h
  omega

/-- Anatomy of a successful `submit`: it was signed in, validation passed, the
seat re-check did not fire, the insert went through, and exactly the data row
was appended. -/
theorem submit_success_shape (cfg : Config) (sess : Session) (form : Form)
    (s1 : List Row) (p : Bool) (s2 : List Row) (i : Bool) (mail : MailEnv) (now : Nat)
    (h : (submit cfg sess form s1 p s2 i mail now).outcome = Outcome.success) :
    require_signed_in cfg sess (_s form.course_session_code) = true ∧
    collectErrors cfg sess form s1 p = [] ∧
    seatFullAtInsert cfg form s2 = false ∧ i = false ∧
    (submit cfg sess form s1 p s2 i mail now).rows =
      s2 ++ [submitData cfg sess form now] := by
  have hc : (submitCore cfg sess form s1 p s2 i now).1 = Outcome.success := h
  unfold submitCore at hc
  split_ifs at hc with h1 h2 h3 h4 <;> simp at hc
  have hr : require_signed_in cfg sess (_s form.course_session_code) = true := by
    cases hb : require_signed_in cfg sess (_s form.course_session_code)
    · exact absurd hb h1
    · rfl
  have he : collectErrors cfg sess form s1 p = [] := not_not.mp h2
  have hsf : seatFullAtInsert cfg form s2 = false := by
    cases hb : seatFullAtInsert cfg form s2
    · rfl
    · exact absurd hb h3
  have hi : i = false := by
    cases hb : i
    · rfl
    · exact absurd hb h4
  subst hi
  refine ⟨hr, he, hsf, rfl, ?_⟩
  show (submitCore cfg sess form s1 p s2 false now).2 = _
  simp [submitCore, hr, he, hsf]

/-- The rows after `submit` are either unchanged or extended by exactly the
data row — and in the latter case the seat re-check did not fire. -/
theorem submit_rows_cases (cfg : Config) (sess : Session) (form : Form)
    (s1 : List Row) (p : Bool) (s2 : List Row) (i : Bool) (mail : MailEnv) (now : Nat) :
    (submit cfg sess form s1 p s2 i mail now).rows = s2 ∨
      ((submit cfg sess form s1 p s2 i mail now).rows =
          s2 ++ [submitData cfg sess form now] ∧
        seatFullAtInsert cfg form s2 = false) := by
  have hrows : (submit cfg sess form s1 p s2 i mail now).rows =
      (submitCore cfg sess form s1 p s2 i now).2 := rfl
  rw [hrows]
  unfold submitCore
  split_ifs with h1 h2 h3 h4
  · exact Or.inl rfl
  · exact Or.inl rfl
  · exact Or.inl rfl
  · exact Or.inl rfl
  · refine Or.inr ⟨rfl, ?_⟩
    cases hb : seatFullAtInsert cfg form s2
    · rfl
    · exact absurd hb h3


/-! ## Claims -/

/-- **C1, counterexample.**  The claim quantifies over every course with a
non-null seat cap `N`.  For `N = 0` it fails: `submit` guards the capacity
check with Python truthiness (`if seat_cap:`), so a configured cap of `0` is
treated like no cap — after the required `N = 0` registrations, the
`(N+1) = 1`st submission is accepted rather than rejected, and the
registration count `1` exceeds the cap `0`. -/
theorem C1_counterexample :
    Option.map Course.seat_cap (course_by_code cfgCap0 (some "BOOT-AI-2024")) =
      some (some 0) ∧
    (submit cfgCap0 anonSession sampleForm [] false [] false mailOk 0).outcome =
      Outcome.success ∧
    countFor (submit cfgCap0 anonSession sampleForm [] false [] false mailOk 0).rows
      (some "BOOT-AI-2024") = 1 := by
  refine ⟨by decide, by decide, by decide⟩

/-- **C1** (amended: the cap must be positive, since `submit` treats a cap of
0 like a null cap).  For a course with seat cap `N > 0`, sequential `submit`
(the pre-check and the transaction read the same snapshot `s`) preserves the
invariant `countFor ≤ N`; and once the count has reached `N`, a signed-in
submission for that course (with a working availability query) is rejected
with the cohort-full validation message and persists nothing. -/
theorem C1_seat_cap_invariant (cfg : Config) (sess : Session) (form : Form)
    (s : List Row) (p i : Bool) (mail : MailEnv) (now : Nat)
    (c : String) (course : Course) (N : Int)
    (hcourse : course_by_code cfg (some c) = some course)
    (hcap : course.seat_cap = some N) (hpos : 0 < N)
    (hle : (countFor s (some c) : Int) ≤ N) :
    ((countFor (submit cfg sess form s p s i mail now).rows (some c) : Int) ≤ N) ∧
    (_s form.course_session_code = some c →
      require_signed_in cfg sess (some c) = true →
      p = false →
      N ≤ (countFor s (some c) : Int) →
      (submit cfg sess form s p s i mail now).outcome =
          Outcome.validationErrors (collectErrors cfg sess form s false) ∧
        cohortFullMsg ∈ collectErrors cfg sess form s false ∧
        (submit cfg sess form s p s i mail now).rows = s) := by
  constructor
  · rcases submit_rows_cases cfg sess form s p s i mail now with hr | ⟨hr, hsf⟩
    · rw [hr]; exact hle
    · rw [hr, countFor_append, submitData_code]
      by_cases hck : _s form.course_session_code = some c
      · have hlt := seatFull_false_lt cfg form s course N
          (by rw [hck]; exact hcourse) hcap (by omega) hsf
        rw [hck] at hlt
        rw [hck]
        simp only [beq_self_eq_true, if_true]
        push_cast
        omega
      · have hbk : ((_s form.course_session_code == some c) : Bool) = false := by
          simp [hck]
        rw [hbk]
        simpa using hle
  · intro hck hsi hp hge
    subst hp
    have hmem : cohortFullMsg ∈ courseErrors cfg form s false := by
      unfold courseErrors
      rw [hck, hcourse]
      have hN0 : N ≠ 0 := by omega
      simp [hcap, hN0, hge]
    have hmemAll : cohortFullMsg ∈ collectErrors cfg sess form s false := by
      unfold collectErrors
      simp only [List.mem_append]
      exact Or.inl (Or.inr hmem)
    have hne : collectErrors cfg sess form s false ≠ [] := by
      intro hnil
      rw [hnil] at hmemAll
      simp at hmemAll
    have hsi2 : require_signed_in cfg sess (_s form.course_session_code) = true := by
      rw [hck]; exact hsi
    refine ⟨?_, hmemAll, ?_⟩
    · show (submitCore cfg sess form s false s i now).1 = _
      unfold submitCore
      simp [hsi2, hne]
    · show (submitCore cfg sess form s false s i now).2 = s
      unfold submitCore
      simp [hsi2, hne]

/-- **C1, witness.**  With the bootcamp capped at 2 and two registrations
already stored, a further sequential submission keeps the count at 2 and
leaves the table unchanged. -/
theorem C1_witness :
    ((countFor (submit cfgCap2 anonSession sampleForm twoBootRows false
        twoBootRows false mailOk 0).rows (some "BOOT-AI-2024") : Int) ≤ 2) ∧
    (submit cfgCap2 anonSession sampleForm twoBootRows false twoBootRows false
      mailOk 0).rows = twoBootRows := by
  have h := C1_seat_cap_invariant cfgCap2 anonSession sampleForm twoBootRows
    false false mailOk 0 "BOOT-AI-2024" bootCourseCap2 2
    (by decide) (by decide) (by decide) (by decide)
  exact ⟨h.1, (h.2 (by decide) (by decide) rfl (by decide)).2.2⟩

/-- **C2, counterexample.**  The only early-bird deadline in the repository
is display data (`COURSE_INFO` in `price.py`); the pricing resolution
`_compute_price` takes no time input and never auto-applies a promo code.
At a concrete instant strictly before that deadline, with no caller-supplied
promo code, pricing returns the bare base price with no promo applied —
refuting the claimed auto-application of the standard discount code. -/
theorem C2_counterexample :
    COURSE_INFO.early_bird_deadline = some "2025-12-20T00:00:00Z" ∧
    isoLt "2025-12-19T12:00:00Z" "2025-12-20T00:00:00Z" = true ∧
    compute_price defaultConfig none (some COURSE_INFO.price_eur) =
      (COURSE_INFO.price_eur, none, false) ∧
    (compute_price defaultConfig none (some COURSE_INFO.price_eur)).2.1 ≠
      some defaultConfig.PROMO_CODE := by
  refine ⟨rfl, by decide, by decide, by decide⟩

/-- **C2** (amended): the pricing resolution is time-independent and never
auto-applies a promo code.  With no caller-supplied promo code (absent or
empty field), it returns the base price unchanged, applies no promo and
reports `is_free = false`, regardless of any early-bird deadline or current
time. -/
theorem C2_no_auto_apply (cfg : Config) (b : Int) :
    compute_price cfg none (some b) = (b, none, false) ∧
    compute_price cfg (some "") (some b) = (b, none, false) :=
  ⟨rfl, rfl⟩

/-- **C3** (confirmed): for the same configuration (hence the same wall-clock
window — pricing reads no clock), the `/price-preview` price for a raw
course value and raw promo value equals the final price `submit` computes
and records for a form carrying the same raw values.  The one textual
difference — `submit` first cleans the promo through `_s` while the preview
passes it raw — cannot change `_compute_price`'s result. -/
theorem C3_preview_matches_submit (cfg : Config) (form : Form) :
    (price_preview cfg form.promo_code form.course_session_code).price_eur =
      (submitPricing cfg form).1 := by
  simp only [price_preview, submitPricing]
  rw [compute_price_strip]

/-- **C4, counterexample.**  `submit` performs no e-mail well-formedness
check: an e-mail with no `@` at all (hence no dot in any domain part) passes
validation, the submission succeeds, and the row is persisted with that
e-mail verbatim — refuting the claimed rejection of not minimally
well-formed e-mails. -/
theorem C4_counterexample :
    ("noatsign".toList.contains '@') = false ∧
    (submit defaultConfig anonSession formBadEmail [] false [] false mailOk 0).outcome =
      Outcome.success ∧
    (submit defaultConfig anonSession formBadEmail [] false [] false mailOk 0).rows.map
      Row.user_email = [some "noatsign"] := by
  refine ⟨by decide, by decide, by decide⟩

/-- **C4** (amended): `submit` validates only the *presence* of an e-mail.
When the form field is blank (after strip) and the session stores none, it
rejects with the "Email is required." validation error and persists no row;
no `@`/dot well-formedness check exists (see the counterexample). -/
theorem C4_email_presence_only (cfg : Config) (sess : Session) (form : Form)
    (s1 : List Row) (p : Bool) (s2 : List Row) (i : Bool) (mail : MailEnv) (now : Nat)
    (hsi : require_signed_in cfg sess (_s form.course_session_code) = true)
    (hmail : _s form.user_email = none) (hsess : sess.user_email = none) :
    (submit cfg sess form s1 p s2 i mail now).outcome =
      Outcome.validationErrors (collectErrors cfg sess form s1 p) ∧
    emailRequiredMsg ∈ collectErrors cfg sess form s1 p ∧
    (submit cfg sess form s1 p s2 i mail now).rows = s2 := by
  have hee : emailErrors sess form = [emailRequiredMsg] := by
    simp [emailErrors, submitEmail, hmail, hsess]
  have hmem : emailRequiredMsg ∈ collectErrors cfg sess form s1 p := by
    unfold collectErrors
    rw [hee]
    simp
  have hne : collectErrors cfg sess form s1 p ≠ [] := by
    intro hnil
    rw [hnil] at hmem
    simp at hmem
  refine ⟨?_, hmem, ?_⟩
  · show (submitCore cfg sess form s1 p s2 i now).1 = _
    unfold submitCore
    simp [hsi, hne]
  · show (submitCore cfg sess form s1 p s2 i now).2 = s2
    unfold submitCore
    simp [hsi, hne]

/-- **C4, witness.**  Blank e-mail, anonymous session: the submission is
rejected with the email-required message and nothing is persisted. -/
theorem C4_witness :
    (submit defaultConfig anonSession formNoEmail [] false [] false mailOk 0).outcome =
      Outcome.validationErrors (collectErrors defaultConfig anonSession formNoEmail [] false) ∧
    emailRequiredMsg ∈ collectErrors defaultConfig anonSession formNoEmail [] false ∧
    (submit defaultConfig anonSession formNoEmail [] false [] false mailOk 0).rows = [] :=
  C4_email_presence_only defaultConfig anonSession formNoEmail [] false [] false
    mailOk 0 (by decide) (by decide) rfl

/-- **C5** (confirmed): a promo string whose stripped lower-cased form
matches neither the configured discount code nor the configured free code
(case-insensitively) leaves the base price unchanged, applies no promo, and
reports `is_free = false`; `_compute_price` is total, so no error is raised
— the soft-fail the spec describes. -/
theorem C5_unknown_promo (cfg : Config) (base : Int) (promo : String)
    (h1 : pyLower (pyStrip promo) ≠ pyLower cfg.PROMO_CODE)
    (h2 : pyLower (pyStrip promo) ≠ pyLower cfg.PROMO_CODE_FREE) :
    compute_price cfg (some promo) (some base) = (base, none, false) := by
  by_cases hse : promo = ""
  · subst hse; rfl
  · have ht : promoTruthy (some promo) = true := by simp [promoTruthy, hse]
    simp only [compute_price, ht, eq_self_iff_true, if_true, Option.getD]
    split_ifs with ha hb
    · exact absurd ha.2.1 h1
    · exact absurd hb.2.1 h2
    · rfl

/-- **C5, witness.**  The spec's own example: `UNKNOWN123` on a base price of
900 returns 900 with no promo applied and no error. -/
theorem C5_witness :
    compute_price defaultConfig (some "UNKNOWN123") (some 900) = (900, none, false) :=
  C5_unknown_promo defaultConfig 900 "UNKNOWN123" (by decide) (by decide)

/-- **C6** (confirmed): with the billing-same-as-personal flag truthy, a
successful `submit` persists exactly the built row with the autofill
applied, and in that row every invoice field equals the submitter's value
when one was given and the corresponding personal field otherwise (for the
invoice name: the space-joined full name). -/
theorem C6_billing_autofill (cfg : Config) (sess : Session) (form : Form)
    (s1 : List Row) (p : Bool) (s2 : List Row) (i : Bool) (mail : MailEnv) (now : Nat)
    (hb : pyBool form.billing_same_as_personal true = true)
    (hs : (submit cfg sess form s1 p s2 i mail now).outcome = Outcome.success) :
    (submit cfg sess form s1 p s2 i mail now).rows =
      s2 ++ [applyBillingFallback (buildData cfg sess form now)] ∧
    ((applyBillingFallback (buildData cfg sess form now)).invoice_name =
      (match _s form.invoice_name with
       | some v => some v
       | none => some (joinWith " " (([_s form.first_name, _s form.last_name]).filterMap id)))) ∧
    ((applyBillingFallback (buildData cfg sess form now)).invoice_email =
      (match _s form.invoice_email with
       | some v => some v
       | none => submitEmail sess form)) ∧
    ((applyBillingFallback (buildData cfg sess form now)).invoice_phone =
      (match _s form.invoice_phone with
       | some v => some v
       | none => _s form.phone)) ∧
    ((applyBillingFallback (buildData cfg sess form now)).invoice_addr_line1 =
      (match _s form.invoice_addr_line1 with
       | some v => some v
       | none => _s form.address_line1)) ∧
    ((applyBillingFallback (buildData cfg sess form now)).invoice_addr_line2 =
      (match _s form.invoice_addr_line2 with
       | some v => some v
       | none => _s form.address_line2)) ∧
    ((applyBillingFallback (buildData cfg sess form now)).invoice_city =
      (match _s form.invoice_city with
       | some v => some v
       | none => _s form.city)) ∧
    ((applyBillingFallback (buildData cfg sess form now)).invoice_state =
      (match _s form.invoice_state with
       | some v => some v
       | none => _s form.state)) ∧
    ((applyBillingFallback (buildData cfg sess form now)).invoice_postal_code =
      (match _s form.invoice_postal_code with
       | some v => some v
       | none => _s form.postal_code)) ∧
    ((applyBillingFallback (buildData cfg sess form now)).invoice_country =
      (match _s form.invoice_country with
       | some v => some v
       | none => _s form.country)) := by
  have hshape := submit_success_shape cfg sess form s1 p s2 i mail now hs
  have hrows := hshape.2.2.2.2
  have hdata : submitData cfg sess form now =
      applyBillingFallback (buildData cfg sess form now) := by
    unfold submitData
    rw [if_pos hb]
  rw [hdata] at hrows
  exact ⟨hrows, rfl, rfl, rfl, rfl, rfl, rfl, rfl, rfl, rfl⟩

/-- **C6, witness.**  Explicit flag, `invoice_name`/`invoice_city` filled,
`invoice_email` blank: the persisted row keeps the filled fields verbatim
and fills the blank one from the personal e-mail. -/
theorem C6_witness :
    (submit defaultConfig anonSession formBilling [] false [] false mailOk 3).rows.map
      Row.invoice_name = [some "ACME B.V."] ∧
    (submit defaultConfig anonSession formBilling [] false [] false mailOk 3).rows.map
      Row.invoice_city = [some "Rotterdam"] ∧
    (submit defaultConfig anonSession formBilling [] false [] false mailOk 3).rows.map
      Row.invoice_email = [some "jane@x.io"] := by
  have h := C6_billing_autofill defaultConfig anonSession formBilling [] false []
    false mailOk 3 (by decide) (by decide)
  rw [h.1]
  decide

/-- **C7** (confirmed): the notification dispatch returns a plain boolean —
a raising SMTP transport is caught and converted to a non-delivered `false`
— and the outcome and persisted rows of `submit` are identical under any
two mail environments, so a notification failure after the commit neither
rolls back nor fails the registration. -/
theorem C7_notification_isolation (cfg : Config) (sess : Session) (form : Form)
    (s1 : List Row) (p : Bool) (s2 : List Row) (i : Bool)
    (m1 m2 env : MailEnv) (now : Nat) (msg : String)
    (hraise : env.transport = Except.error msg) :
    (submit cfg sess form s1 p s2 i m1 now).outcome =
      (submit cfg sess form s1 p s2 i m2 now).outcome ∧
    (submit cfg sess form s1 p s2 i m1 now).rows =
      (submit cfg sess form s1 p s2 i m2 now).rows ∧
    send_email_smtp env = false := by
  refine ⟨rfl, rfl, ?_⟩
  unfold send_email_smtp
  rw [hraise]
  split_ifs <;> rfl

/-- **C7, witness.**  A fully valid submission under a healthy and under a
raising mail transport: same outcome, same rows, and the raising transport
yields a caught, non-delivered `false`. -/
theorem C7_witness :
    (submit defaultConfig anonSession sampleForm [] false [] false mailOk 0).outcome =
      (submit defaultConfig anonSession sampleForm [] false [] false mailRaises 0).outcome ∧
    (submit defaultConfig anonSession sampleForm [] false [] false mailOk 0).rows =
      (submit defaultConfig anonSession sampleForm [] false [] false mailRaises 0).rows ∧
    send_email_smtp mailRaises = false :=
  C7_notification_isolation defaultConfig anonSession sampleForm [] false [] false
    mailOk mailRaises mailRaises 0 "SMTPException" rfl

/-- **C8, counterexample.**  When the *pre-check* finds the cohort full, an
otherwise fully valid submission produces the generic validation-error
outcome (a 400 re-render whose error list carries the cohort-full message),
not a distinct `SeatCapReached` outcome — refuting the claim that the
distinct outcome appears "in both the pre-check and the pre-insert check". -/
theorem C8_counterexample :
    (submit cfgCap2 anonSession sampleForm twoBootRows false twoBootRows false
      mailOk 0).outcome = Outcome.validationErrors [cohortFullMsg] := by
  decide

/-- **C8** (amended): the distinct `SeatCapReached` outcome arises only at
the pre-insert check — when the pre-check snapshot still showed a free seat
but the transaction snapshot is at the cap, `submit` raises `SeatCapReached`
and returns its distinct flash redirect, which no list of validation
messages can equal; at the pre-check, a full cohort is reported as a message
*inside* the generic validation-error outcome. -/
theorem C8_seat_cap_distinct (cfg : Config) (sess : Session) (form : Form)
    (s1 s2 : List Row) (i : Bool) (mail : MailEnv) (now : Nat)
    (c : String) (course : Course) (cap : Int) (msgs : List String)
    (hcode : _s form.course_session_code = some c)
    (hsi : require_signed_in cfg sess (some c) = true)
    (hcourse : course_by_code cfg (some c) = some course)
    (hcap : course.seat_cap = some cap) (hpos : 0 < cap) :
    (cap ≤ (countFor s1 (some c) : Int) →
      (submit cfg sess form s1 false s2 i mail now).outcome =
          Outcome.validationErrors (collectErrors cfg sess form s1 false) ∧
        cohortFullMsg ∈ collectErrors cfg sess form s1 false) ∧
    (collectErrors cfg sess form s1 false = [] →
      cap ≤ (countFor s2 (some c) : Int) →
      (submit cfg sess form s1 false s2 i mail now).outcome = Outcome.seatCapFull) ∧
    Outcome.seatCapFull ≠ Outcome.validationErrors msgs := by
  have hsi2 : require_signed_in cfg sess (_s form.course_session_code) = true := by
    rw [hcode]; exact hsi
  refine ⟨?_, ?_, by simp⟩
  · intro hge
    have hmem : cohortFullMsg ∈ courseErrors cfg form s1 false := by
      unfold courseErrors
      rw [hcode, hcourse]
      have hN0 : cap ≠ 0 := by omega
      simp [hcap, hN0, hge]
    have hmemAll : cohortFullMsg ∈ collectErrors cfg sess form s1 false := by
      unfold collectErrors
      simp only [List.mem_append]
      exact Or.inl (Or.inr hmem)
    have hne : collectErrors cfg sess form s1 false ≠ [] := by
      intro hnil
      rw [hnil] at hmemAll
      simp at hmemAll
    refine ⟨?_, hmemAll⟩
    show (submitCore cfg sess form s1 false s2 i now).1 = _
    unfold submitCore
    simp [hsi2, hne]
  · intro hval hge
    have hsf : seatFullAtInsert cfg form s2 = true := by
      unfold seatFullAtInsert
      rw [hcode, hcourse]
      have hN0 : cap ≠ 0 := by omega
      simp [hcap, hN0, hge]
    show (submitCore cfg sess form s1 false s2 i now).1 = _
    unfold submitCore
    simp [hsi2, hval, hsf]

/-- **C8, witness.**  Cap 2, pre-check snapshot with one registration,
transaction snapshot with two (the narrowed race window): the outcome is the
distinct `SeatCapReached` redirect, and it differs from the validation-error
outcome carrying the cohort-full message. -/
theorem C8_witness :
    (submit cfgCap2 anonSession sampleForm [bootRow] false twoBootRows false
      mailOk 0).outcome = Outcome.seatCapFull ∧
    Outcome.seatCapFull ≠ Outcome.validationErrors [cohortFullMsg] := by
  have h := C8_seat_cap_distinct cfgCap2 anonSession sampleForm [bootRow]
    twoBootRows false mailOk 0 "BOOT-AI-2024" bootCourseCap2 2 [cohortFullMsg]
    (by decide) (by decide) (by decide) (by decide) (by decide)
  exact ⟨h.2.1 (by decide) (by decide), h.2.2⟩

/-- **C9** (confirmed): for a course whose configured seat cap is exactly 0,
`submit` performs no capacity check at all — the outcome is independent of
both snapshots of the registrations table (so any otherwise-valid
submission succeeds no matter how many rows already reference the session
code), and the `SeatCapReached` outcome is unreachable. -/
theorem C9_zero_cap_no_capacity_check (cfg : Config) (sess : Session) (form : Form)
    (s1 s2 t1 t2 : List Row) (p i : Bool) (mail : MailEnv) (now : Nat)
    (course : Course)
    (hcourse : course_by_code cfg (_s form.course_session_code) = some course)
    (hcap : course.seat_cap = some 0) :
    (submit cfg sess form s1 p s2 i mail now).outcome =
      (submit cfg sess form t1 p t2 i mail now).outcome ∧
    (submit cfg sess form s1 p s2 i mail now).outcome ≠ Outcome.seatCapFull := by
  have hce : ∀ u : List Row, courseErrors cfg form u p = [] := by
    intro u
    unfold courseErrors
    rw [hcourse]
    simp [hcap]
  have hcol : ∀ u : List Row, collectErrors cfg sess form u p =
      collectErrors cfg sess form [] p := by
    intro u
    unfold collectErrors
    rw [hce u, hce []]
  have hsf : ∀ u : List Row, seatFullAtInsert cfg form u = false := by
    intro u
    unfold seatFullAtInsert
    rw [hcourse]
    simp [hcap]
  constructor
  · show (submitCore cfg sess form s1 p s2 i now).1 =
      (submitCore cfg sess form t1 p t2 i now).1
    unfold submitCore
    rw [hcol s1, hcol t1, hsf s2, hsf t2]
    split_ifs <;> rfl
  · show (submitCore cfg sess form s1 p s2 i now).1 ≠ Outcome.seatCapFull
    unfold submitCore
    rw [hsf s2]
    split_ifs with a b c d <;> simp_all

/-- **C9, witness.**  With the bootcamp capped at 0 and three registrations
already stored, an otherwise-valid submission behaves exactly as against an
empty table (it succeeds), and the seat-cap outcome cannot arise. -/
theorem C9_witness :
    (submit cfgCap0 anonSession sampleForm threeBootRows false threeBootRows
        false mailOk 0).outcome =
      (submit cfgCap0 anonSession sampleForm [] false [] false mailOk 0).outcome ∧
    (submit cfgCap0 anonSession sampleForm threeBootRows false threeBootRows
      false mailOk 0).outcome ≠ Outcome.seatCapFull :=
  C9_zero_cap_no_capacity_check cfgCap0 anonSession sampleForm threeBootRows
    threeBootRows [] [] false false mailOk 0 bootCourseCap0 (by decide) (by decide)

/-- **C10** (confirmed): when the submitted e-mail field is blank but the
session stores an e-mail, `submit` substitutes the session e-mail — the
e-mail presence check contributes no error, the built (and, with the
billing autofill, persisted) row carries the session e-mail as `user_email`,
and on success exactly that row is appended. -/
theorem C10_session_email_fallback (cfg : Config) (sess : Session) (form : Form)
    (s1 : List Row) (p : Bool) (s2 : List Row) (i : Bool) (mail : MailEnv)
    (now : Nat) (e : String)
    (hform : _s form.user_email = none) (hsess : sess.user_email = some e) :
    emailErrors sess form = [] ∧
    (submitData cfg sess form now).user_email = some e ∧
    ((submit cfg sess form s1 p s2 i mail now).outcome = Outcome.success →
      (submit cfg sess form s1 p s2 i mail now).rows =
        s2 ++ [submitData cfg sess form now]) := by
  have hse : submitEmail sess form = some e := by
    simp [submitEmail, hform, hsess]
  refine ⟨by simp [emailErrors, hse], ?_, ?_⟩
  · unfold submitData
    split_ifs <;> simp [applyBillingFallback, buildData, hse]
  · intro hs
    exact (submit_success_shape cfg sess form s1 p s2 i mail now hs).2.2.2.2

/-- **C10, witness.**  Blank form e-mail, session e-mail `stored@x.io`: no
email-required error, and the submission succeeds persisting a row whose
`user_email` is the session e-mail. -/
theorem C10_witness :
    emailErrors sessWithEmail formNoEmail = [] ∧
    (submitData defaultConfig sessWithEmail formNoEmail 5).user_email =
      some "stored@x.io" ∧
    ((submit defaultConfig sessWithEmail formNoEmail [] false [] false mailOk 5).outcome =
        Outcome.success →
      (submit defaultConfig sessWithEmail formNoEmail [] false [] false mailOk 5).rows =
        [] ++ [submitData defaultConfig sessWithEmail formNoEmail 5]) :=
  C10_session_email_fallback defaultConfig sessWithEmail formNoEmail [] false []
    false mailOk 5 "stored@x.io" (by decide) rfl
